import Mathlib

/-!
Shallow embedding of the AI website generator (src/index.tsx, with the earlier
variant in src/unnamed/part_000) and proofs about its asset pipeline, history
manager, placeholder resolution, export assembler and persistence bridge.

External collaborators (the generative text/image model, the DOM parser and
serializer, the zip library, fetch) are modelled as oracle parameters: a
network call that can fail is an `Option`-valued function, parsing and
serialization of markup are opaque function parameters, and the parsed
document itself is a structure holding exactly the parts of the DOM that the
code reads or writes.
-/

namespace SiteGen

/-- One entry of the structured-generation response's `imagePrompts` array:
`{id, prompt}` (src/index.tsx, `websiteGenerationSchema`). -/
structure ImagePromptSpec where
  id : String
  prompt : String
deriving Repr, DecidableEq

/-- One generated image as stored in `latestGeneratedImages`:
`{ id, url, prompt }` (src/index.tsx line 66). -/
structure ImageAsset where
  id : String
  url : String
  prompt : String
deriving Repr, DecidableEq

/-- The favicon value stored in `latestFavicon`: `{ url, prompt }`
(src/index.tsx line 67). -/
structure Favicon where
  url : String
  prompt : String
deriving Repr, DecidableEq

/-- An `(html, css)` undo/redo snapshot (src/index.tsx line 68). -/
structure Snapshot where
  html : String
  css : String
deriving Repr, DecidableEq

/-- The parsed structured-generation reply (src/index.tsx lines 99-142,
`websiteGenerationSchema`; all fields are required by the schema). -/
structure SiteDraft where
  pageTitle : String
  metaDescription : String
  metaKeywords : String
  faviconPrompt : String
  htmlContent : String
  imagePrompts : List ImagePromptSpec
deriving Repr, DecidableEq

/-- An `<img>` element of the parsed document that carries an `id` attribute:
the slice of the DOM that `getElementById` + `.src` assignment touches. -/
structure HtmlImg where
  id : String
  src : Option String
  alt : String
deriving Repr, DecidableEq

/-- The slice of a parsed HTML document that the code reads or writes:
style elements in the head and in the body (in document order),
the `meta[name="description"]` and `meta[name="keywords"]` contents,
the `link[rel*='icon']` href, and the identified `<img>` elements in
document order.  `none` for a meta/link field means the element is absent. -/
structure HtmlDoc where
  headStyles : List String
  bodyStyles : List String
  metaDescription : Option String
  metaKeywords : Option String
  iconHref : Option String
  images : List HtmlImg
deriving Repr, DecidableEq

/-- The mutable module state of src/index.tsx (lines 64-70) together with the
two editor contents and the visibility of the input form and result view. -/
structure AppState where
  latestGeneratedImages : List ImageAsset
  latestFavicon : Option Favicon
  history : List Snapshot
  historyIndex : Int
  htmlEditor : String
  cssEditor : String
  inputHidden : Bool
  resultShown : Bool
deriving Repr, DecidableEq

/-- Module state at script start: empty image list, no favicon, empty history,
`historyIndex = -1`, empty editors, input form visible, result hidden. -/
def initialState : AppState :=
  { latestGeneratedImages := []
    latestFavicon := none
    history := []
    historyIndex := -1
    htmlEditor := ""
    cssEditor := ""
    inputHidden := false
    resultShown := false }

/-- `showError` (src/index.tsx lines 631-635): hides the loading indicator,
re-shows the input section and alerts.  Only the input-section visibility is
part of the modelled state. -/
def showError (s : AppState) : AppState :=
  { s with inputHidden := false }

/-! ## Asset pipeline (src/index.tsx lines 353-518) -/

/-- JavaScript's `String.prototype.trim`: drop leading and trailing
whitespace. -/
def jsTrim (s : String) : String :=
  String.mk (((s.data.dropWhile Char.isWhitespace).reverse.dropWhile
    Char.isWhitespace).reverse)

/-- One iteration of `improveImagePrompts` (src/index.tsx lines 373-389):
ask the text model to refine the short prompt; on success use the trimmed
reply with the same id, on failure fall back to the original spec.
`refine` is the oracle for the per-item `ai.models.generateContent` call. -/
def improveOne (refine : ImagePromptSpec → Option String) (p : ImagePromptSpec) :
    ImagePromptSpec :=
  match refine p with
  | some t => { id := p.id, prompt := jsTrim t }
  | none => p

/-- `improveImagePrompts` (src/index.tsx lines 353-392): refine every prompt;
per-item failure degrades to the original prompt and never drops items. -/
def improveImagePrompts (refine : ImagePromptSpec → Option String)
    (prompts : List ImagePromptSpec) : List ImagePromptSpec :=
  prompts.map (improveOne refine)

/-- The designated failure-placeholder URL used when a single image-generation
call throws (src/index.tsx line 439). -/
def failurePlaceholderUrl : String :=
  "https://via.placeholder.com/1280x720.png?text=Image+Generation+Failed"

/-- One iteration of the `generateImages` loop (src/index.tsx lines 423-444):
render the prompt; on failure push the placeholder URL, keeping the id and
the prompt.  `render` is the oracle for the `ai.models.generateImages` call. -/
def renderOne (render : ImagePromptSpec → Option String) (p : ImagePromptSpec) :
    ImageAsset :=
  match render p with
  | some url => { id := p.id, url := url, prompt := p.prompt }
  | none => { id := p.id, url := failurePlaceholderUrl, prompt := p.prompt }

/-- `generateImages` (src/index.tsx lines 415-446): sequential loop over the
refined prompts, one result per prompt, in order. -/
def generateImages (render : ImagePromptSpec → Option String)
    (prompts : List ImagePromptSpec) : List ImageAsset :=
  prompts.map (renderOne render)

/-- The style wrapper put around the favicon prompt (src/index.tsx line 399). -/
def faviconStyledPrompt (prompt : String) : String :=
  "A modern, minimalist, vector-style logo icon. " ++ prompt ++
    ". High contrast, simple shapes, professional, white background."

/-- `generateFavicon` (src/index.tsx lines 394-413): one image call on the
wrapped prompt; failure yields `none`, never a pipeline error. -/
def generateFavicon (favRender : String → Option String) (prompt : String) :
    Option Favicon :=
  match favRender (faviconStyledPrompt prompt) with
  | some url => some { url := url, prompt := prompt }
  | none => none

/-! ## History manager (src/index.tsx lines 299-311 and 668-689) -/

/-- JavaScript's `arr.slice(0, e)` for a possibly negative end index. -/
def jsSliceTo (l : List Snapshot) (e : Int) : List Snapshot :=
  if e < 0 then l.take ((l.length : Int) + e).toNat else l.take e.toNat

/-- `pushHistoryState` (src/index.tsx lines 668-676): truncate the redo branch
when the cursor is not at the end, append the snapshot, move the cursor to the
last index. -/
def pushHistoryState (h c : String) (s : AppState) : AppState :=
  let hist :=
    if s.historyIndex < (s.history.length : Int) - 1 then
      jsSliceTo s.history (s.historyIndex + 1)
    else s.history
  let hist2 := hist ++ [⟨h, c⟩]
  { s with history := hist2, historyIndex := (hist2.length : Int) - 1 }

/-- `loadStateFromHistory` (src/index.tsx lines 678-684): copy the snapshot at
the cursor into both editors (and refresh the preview). -/
def loadStateFromHistory (s : AppState) : AppState :=
  let st := s.history.getD s.historyIndex.toNat ⟨"", ""⟩
  { s with htmlEditor := st.html, cssEditor := st.css }

/-- The undo click handler (src/index.tsx lines 299-304). -/
def undoClick (s : AppState) : AppState :=
  if 0 < s.historyIndex then
    loadStateFromHistory { s with historyIndex := s.historyIndex - 1 }
  else s

/-- The redo click handler (src/index.tsx lines 306-311). -/
def redoClick (s : AppState) : AppState :=
  if s.historyIndex < (s.history.length : Int) - 1 then
    loadStateFromHistory { s with historyIndex := s.historyIndex + 1 }
  else s

/-- `undoBtn.disabled` as set by `updateUndoRedoButtons`
(src/index.tsx line 687): `historyIndex <= 0`. -/
def undoDisabled (s : AppState) : Bool :=
  decide (s.historyIndex ≤ 0)

/-- `redoBtn.disabled` as set by `updateUndoRedoButtons`
(src/index.tsx line 688): `historyIndex >= history.length - 1`. -/
def redoDisabled (s : AppState) : Bool :=
  decide ((s.history.length : Int) - 1 ≤ s.historyIndex)

/-- The history reset performed by `populateUI` (src/index.tsx lines 569-572):
`history = []; historyIndex = -1; pushHistoryState(html, css)`. -/
def resetHistory (h c : String) (s : AppState) : AppState :=
  pushHistoryState h c { s with history := [], historyIndex := -1 }

/-! ## Placeholder resolution on the parsed document
(src/index.tsx lines 527-563 and 637-666) -/

/-- Position of the first `<img>` whose `id` attribute equals `pid`
(`document.getElementById` returns the first element with a given id). -/
def findIdxOf : List HtmlImg → String → Option Nat
  | [], _ => none
  | e :: rest, pid =>
      if e.id = pid then some 0 else (findIdxOf rest pid).map (· + 1)

/-- Overwrite the `src` attribute of the image at position `i`. -/
def modSrc : List HtmlImg → Nat → String → List HtmlImg
  | [], _, _ => []
  | e :: rest, 0, url => { e with src := some url } :: rest
  | e :: rest, Nat.succ n, url => e :: modSrc rest n url

/-- `doc.getElementById(pid)` followed by `.src = url`: set the `src` of the
first element with the given id; if no element matches, do nothing
(src/index.tsx lines 650-655). -/
def setSrcById (l : List HtmlImg) (pid url : String) : List HtmlImg :=
  match findIdxOf l pid with
  | none => l
  | some i => modSrc l i url

/-- The `latestGeneratedImages.forEach` loop of `updatePreview`
(src/index.tsx lines 650-655): write every asset's URL into the matching
placeholder, in asset order. -/
def injectImages (images : List ImageAsset) (l : List HtmlImg) : List HtmlImg :=
  images.foldl (fun acc img => setSrcById acc img.id img.url) l

/-- `updatePreview` (src/index.tsx lines 637-666) as a transformation of the
parsed document: remove every style element from the head and append a single
style holding the editor CSS, write every asset URL into its placeholder, and
rewrite the icon link's href when a favicon exists and the link is present
(the preview path never creates the link). -/
def updatePreview (images : List ImageAsset) (favicon : Option Favicon)
    (css : String) (d : HtmlDoc) : HtmlDoc :=
  let d2 := { d with headStyles := [css], images := injectImages images d.images }
  match favicon with
  | some f =>
      match d2.iconHref with
      | some _ => { d2 with iconHref := some f.url }
      | none => d2
  | none => d2

/-- The SEO/meta and favicon injection of `populateUI`
(src/index.tsx lines 527-558): find-or-create the description and keywords
meta elements when the corresponding value is non-empty, and find-or-create
the icon link when a favicon was generated, setting its href. -/
def injectMetaFavicon (metaDesc metaKeywords : String) (favicon : Option Favicon)
    (d : HtmlDoc) : HtmlDoc :=
  let d1 := if metaDesc = "" then d else { d with metaDescription := some metaDesc }
  let d2 :=
    if metaKeywords = "" then d1 else { d1 with metaKeywords := some metaKeywords }
  match favicon with
  | some f => { d2 with iconHref := some f.url }
  | none => d2

/-- `doc.querySelector('style')` + `textContent` + `remove()`
(src/index.tsx lines 560-562): take the first style element in document order
(head before body), return its text (or the empty string when there is none)
and the document without it. -/
def extractFirstStyle (d : HtmlDoc) : String × HtmlDoc :=
  match d.headStyles with
  | c :: rest => (c, { d with headStyles := rest })
  | [] =>
      match d.bodyStyles with
      | c :: rest => (c, { d with bodyStyles := rest })
      | [] => ("", d)

/-- The full placeholder-resolution pass a generation performs on the parsed
markup: `populateUI`'s meta/favicon injection and style extraction
(src/index.tsx lines 527-563) followed by `updatePreview` on the extracted
CSS (line 608 calls `updatePreview(htmlContent, cssContent)`). -/
def resolveDoc (images : List ImageAsset) (favicon : Option Favicon)
    (metaDesc metaKeywords : String) (d : HtmlDoc) : HtmlDoc :=
  let d1 := injectMetaFavicon metaDesc metaKeywords favicon d
  let p := extractFirstStyle d1
  updatePreview images favicon p.1 p.2

/-! ## Generation pipeline driver (src/index.tsx lines 448-618) -/

/-- `populateUI` (src/index.tsx lines 521-618): store the generated images,
parse the generated markup, inject meta tags and favicon, split off the first
style block as CSS, load the two editors, reset the history to a single
snapshot, and reveal the result view.  `parse`/`serialize` are the DOM
collaborator. -/
def populateUI (parse : String → HtmlDoc) (serialize : HtmlDoc → String)
    (html : String) (images : List ImageAsset) (metaDesc metaKeywords : String)
    (s : AppState) : AppState :=
  let s1 := { s with latestGeneratedImages := images }
  let doc := injectMetaFavicon metaDesc metaKeywords s1.latestFavicon (parse html)
  let p := extractFirstStyle doc
  let htmlContent := serialize p.2
  let s2 := { s1 with htmlEditor := htmlContent, cssEditor := p.1,
                      history := [], historyIndex := -1 }
  let s3 := pushHistoryState htmlContent p.1 s2
  { s3 with resultShown := true }

/-- `generateWebsite` (src/index.tsx lines 448-518).  The structured
generation call together with `JSON.parse` of its reply is the oracle
`structured`: `none` when the call fails or the reply does not conform, in
which case control reaches the catch block (`showError`).  Before the try
block, the function hides the input form and the result view and resets
`latestGeneratedImages`/`latestFavicon` (lines 453-456). -/
def generateWebsite (structured : Option SiteDraft)
    (refine : ImagePromptSpec → Option String)
    (favRender : String → Option String)
    (render : ImagePromptSpec → Option String)
    (parse : String → HtmlDoc) (serialize : HtmlDoc → String)
    (s : AppState) : AppState :=
  let s1 := { s with inputHidden := true, resultShown := false,
                     latestGeneratedImages := [], latestFavicon := none }
  match structured with
  | none => showError s1
  | some draft =>
      let improved := improveImagePrompts refine draft.imagePrompts
      let fav := generateFavicon favRender draft.faviconPrompt
      let s2 := { s1 with latestFavicon := fav }
      let imgs := generateImages render improved
      populateUI parse serialize draft.htmlContent imgs
        draft.metaDescription draft.metaKeywords s2

/-- Minimum prompt length enforced by the submit handler
(src/index.tsx line 160). -/
def minPromptLength : Nat := 15

/-- Outcome of one click/submit interaction: the resulting module state,
whether a generation run (network call) was started, and whether an alert
was shown to the user. -/
structure SubmitOutcome where
  state : AppState
  generationStarted : Bool
  alerted : Bool
deriving Repr, DecidableEq

/-- The form submit handler (src/index.tsx lines 145-188): reject when the AI
client is missing, when the trimmed prompt is empty, or when it is shorter
than `minPromptLength`; otherwise build the detailed prompt and run
`generateWebsite`. -/
def formSubmit (aiOk : Bool) (structured : Option SiteDraft)
    (refine : ImagePromptSpec → Option String)
    (favRender : String → Option String)
    (render : ImagePromptSpec → Option String)
    (parse : String → HtmlDoc) (serialize : HtmlDoc → String)
    (s : AppState) (inputText : String) : SubmitOutcome :=
  if !aiOk then
    { state := showError s, generationStarted := false, alerted := true }
  else
    let userPrompt := jsTrim inputText
    if userPrompt = "" then
      { state := showError s, generationStarted := false, alerted := true }
    else if userPrompt.length < minPromptLength then
      { state := showError s, generationStarted := false, alerted := true }
    else
      { state := generateWebsite structured refine favRender render parse serialize s,
        generationStarted := true, alerted := false }

/-! ## Export assembler (src/index.tsx lines 227-297) -/

/-- `image.id.replace(/[^a-z0-9]/gi, '_').toLowerCase()`
(src/index.tsx line 250). -/
def sanitizeId (s : String) : String :=
  (s.map (fun c => if c.isAlphanum then c else '_')).toLower

/-- Result of the per-image export loop: the updated document, the files
added under `images/` (filename, blob) in loop order, and the URLs fetched
in order. -/
structure ExportImagesResult where
  doc : HtmlDoc
  files : List (String × String)
  fetched : List String
deriving Repr, DecidableEq

/-- The `for (const image of latestGeneratedImages)` loop of the export
handler (src/index.tsx lines 246-258): skip assets whose id matches no
element (`if (!imgElement) continue`), otherwise rewrite the element's src to
the relative archive path, fetch the payload and add it to `images/`.
`fetch` is the oracle for `fetch(url)` + `blob()`. -/
def exportLoop (fetch : String → String) :
    List ImageAsset → HtmlDoc → ExportImagesResult
  | [], doc => ⟨doc, [], []⟩
  | a :: rest, doc =>
      match findIdxOf doc.images a.id with
      | none => exportLoop fetch rest doc
      | some i =>
          let filename := sanitizeId a.id ++ ".jpeg"
          let r := exportLoop fetch rest
            { doc with images := modSrc doc.images i ("images/" ++ filename) }
          ⟨r.doc, (filename, fetch a.url) :: r.files, a.url :: r.fetched⟩

/-- The produced zip archive: content-image files under `images/`, the
favicon blob (stored as `images/favicon.jpeg` when present) and
`index.html`. -/
structure Archive where
  imageFiles : List (String × String)
  faviconFile : Option String
  indexHtml : String
deriving Repr, DecidableEq

/-- Outcome of an export click: the module state afterwards, the archive if
one was produced, every URL fetched, and whether the precondition alert was
shown. -/
structure ExportOutcome where
  state : AppState
  archive : Option Archive
  fetched : List String
  alerted : Bool
deriving Repr, DecidableEq

/-- The export click handler (src/index.tsx lines 227-297): precondition
check `!htmlValue || latestGeneratedImages.length === 0` first (alert, no
archive, nothing fetched); otherwise parse the editor markup, run the image
loop, handle the favicon (only when an icon link exists in the markup),
replace the head styles with the CSS editor content and store the serialized
document as `index.html`. -/
def exportClick (parse : String → HtmlDoc) (serialize : HtmlDoc → String)
    (fetch : String → String) (s : AppState) : ExportOutcome :=
  if s.htmlEditor = "" ∨ s.latestGeneratedImages = [] then
    { state := s, archive := none, fetched := [], alerted := true }
  else
    let r := exportLoop fetch s.latestGeneratedImages (parse s.htmlEditor)
    let favStep : HtmlDoc × Option String × List String :=
      match s.latestFavicon with
      | some f =>
          match r.doc.iconHref with
          | some _ =>
              ({ r.doc with iconHref := some "images/favicon.jpeg" },
               some (fetch f.url), [f.url])
          | none => (r.doc, none, [])
      | none => (r.doc, none, [])
    let finalDoc := { favStep.1 with headStyles := [s.cssEditor] }
    { state := s,
      archive := some ⟨r.files, favStep.2.1, serialize finalDoc⟩,
      fetched := r.fetched ++ favStep.2.2,
      alerted := false }

/-! ## Persistence bridge (src/index.tsx lines 703-798) -/

/-- The record written to local storage (src/index.tsx lines 712-718). -/
structure SavedData where
  html : String
  css : String
  images : List ImageAsset
  favicon : Option Favicon
  timestamp : Nat
deriving Repr, DecidableEq

/-- `saveStateToLocalStorage` (src/index.tsx lines 703-734): skip the write
when both editors are empty and no images exist; otherwise write the full
record, retrying without image payloads when the quota is exceeded, and
dropping the save silently when even that fails.  `quotaOk` is the oracle
for whether `localStorage.setItem` succeeds on a given record. -/
def saveStateToLocalStorage (quotaOk : SavedData → Bool) (now : Nat)
    (s : AppState) (store : Option SavedData) : Option SavedData :=
  if s.htmlEditor = "" ∧ s.latestGeneratedImages = [] then store
  else
    let data : SavedData :=
      { html := s.htmlEditor, css := s.cssEditor,
        images := s.latestGeneratedImages, favicon := s.latestFavicon,
        timestamp := now }
    if quotaOk data then some data
    else
      let data2 := { data with images := [], favicon := none }
      if quotaOk data2 then some data2 else store

/-- `loadStateFromLocalStorage` (src/index.tsx lines 736-798): when a record
exists and its `html` is non-empty, restore images, favicon and editors,
switch the UI to the generated-site view, clear the history and push the
restored snapshot; otherwise leave everything untouched. -/
def loadStateFromLocalStorage (store : Option SavedData) (s : AppState) :
    AppState :=
  match store with
  | none => s
  | some data =>
      if data.html = "" then s
      else
        let s1 := { s with latestGeneratedImages := data.images,
                           latestFavicon := data.favicon,
                           htmlEditor := data.html, cssEditor := data.css,
                           inputHidden := true, resultShown := true,
                           history := [] }
        pushHistoryState data.html data.css s1

/-! ## History operations as a transition system -/

/-- The operations the UI performs on the history stack: manual pushes
(update-preview clicks), the undo/redo click handlers, and the reset done by
`populateUI` after a fresh generation. -/
inductive HistOp where
  | push (h c : String)
  | undo
  | redo
  | reset (h c : String)
deriving Repr, DecidableEq

/-- Apply one history operation to the module state. -/
def applyHistOp (s : AppState) : HistOp → AppState
  | .push h c => pushHistoryState h c s
  | .undo => undoClick s
  | .redo => redoClick s
  | .reset h c => resetHistory h c s

/-- Apply a sequence of history operations in order. -/
def applyHistOps (s : AppState) (ops : List HistOp) : AppState :=
  ops.foldl applyHistOp s

/-- The history-stack invariant: the snapshot sequence is non-empty and the
cursor is a valid index into it. -/
def historyOk (s : AppState) : Prop :=
  s.history ≠ [] ∧ 0 ≤ s.historyIndex ∧
    s.historyIndex ≤ (s.history.length : Int) - 1

/-- Write `url` into the `src` attribute of an image element. -/
def srcWrite (u : String) (e : HtmlImg) : HtmlImg :=
  { e with src := some u }

/-- The last URL that the asset list writes into position `j`, given the
position that each placeholder id resolves to (later writes shadow earlier
ones, matching the left fold of `injectImages`). -/
def lastUrlAt (idx : String → Option Nat) : List ImageAsset → Nat → Option String
  | [], _ => none
  | a :: as, j =>
      match lastUrlAt idx as j with
      | some u => some u
      | none => if idx a.id = some j then some a.url else none

/-! ## Concrete inputs used by witnesses and counterexamples -/

/-- Default element used with `List.getD` over prompt lists. -/
def defaultSpec : ImagePromptSpec := ⟨"", ""⟩

/-- Default element used with `List.getD` over asset lists. -/
def defaultAsset : ImageAsset := ⟨"", "", ""⟩

/-- A refinement oracle that fails on the hero image and succeeds (with
surrounding whitespace, exercising the trim) on everything else. -/
def wRefine : ImagePromptSpec → Option String :=
  fun p => if p.id = "hero-image" then none else some "  refined pastry counter  "

/-- A rendering oracle that fails on the menu image and succeeds elsewhere. -/
def wRender : ImagePromptSpec → Option String :=
  fun p => if p.id = "menu-image" then none else some "data:image/jpeg;base64,AAA"

/-- A favicon oracle that always fails. -/
def wFavRender : String → Option String := fun _ => none

/-- A DOM-parse collaborator returning an empty document. -/
def wParse : String → HtmlDoc := fun _ => ⟨[], [], none, none, none, []⟩

/-- A DOM-serialize collaborator. -/
def wSerialize : HtmlDoc → String := fun _ => "<html></html>"

/-- A fetch collaborator mapping a URL to a blob marker. -/
def wFetch : String → String := fun u => "blob:" ++ u

/-- A concrete structured-generation reply with two image prompts. -/
def wDraft : SiteDraft :=
  { pageTitle := "Bakery"
    metaDescription := "A bakery landing page"
    metaKeywords := "bakery,bread"
    faviconPrompt := "logo"
    htmlContent := "<html><body><img id=hero-image><img id=menu-image></body></html>"
    imagePrompts := [⟨"hero-image", "fresh bread display"⟩,
                     ⟨"menu-image", "pastry counter"⟩] }

/-- A module state holding a previously published document: one image asset,
a favicon, a one-snapshot history and non-empty editors. -/
def cPriorState : AppState :=
  { latestGeneratedImages := [⟨"hero-image", "data:old", "old prompt"⟩]
    latestFavicon := some ⟨"data:fav", "old logo"⟩
    history := [⟨"<html>H</html>", "body"⟩]
    historyIndex := 0
    htmlEditor := "<html>H</html>"
    cssEditor := "body"
    inputHidden := true
    resultShown := true }

/-- A state whose editors hold an empty markup string while image assets
exist: the save guard lets it through but the load guard rejects it. -/
def cSaveState : AppState :=
  { latestGeneratedImages := [⟨"hero", "data:u", "p"⟩]
    latestFavicon := none
    history := []
    historyIndex := -1
    htmlEditor := ""
    cssEditor := "body"
    inputHidden := false
    resultShown := false }

/-- A one-snapshot history state with the cursor at 0 (both terminal). -/
def w5State : AppState :=
  { initialState with history := [⟨"a", "b"⟩], historyIndex := 0 }

/-- A valid two-snapshot history state. -/
def w8State : AppState :=
  { initialState with history := [⟨"a", "b"⟩, ⟨"c", "d"⟩], historyIndex := 1 }

/-- A concrete operation sequence exercising push, undo, redo and reset. -/
def w8Ops : List HistOp :=
  [HistOp.undo, HistOp.push "x" "y", HistOp.redo, HistOp.reset "r" "q", HistOp.undo]

/-! # Theorems -/

/-! ## History manager -/

@[simp] theorem loadStateFromHistory_history (s : AppState) :
    (loadStateFromHistory s).history = s.history := rfl

@[simp] theorem loadStateFromHistory_historyIndex (s : AppState) :
    (loadStateFromHistory s).historyIndex = s.historyIndex := rfl

theorem jsSliceTo_nil (e : Int) : jsSliceTo [] e = [] := by
  unfold jsSliceTo; split <;> simp

theorem pushHistoryState_ok (h c : String) (s : AppState) :
    historyOk (pushHistoryState h c s) := by
  unfold pushHistoryState historyOk
  refine ⟨by simp, by simp, by simp⟩

theorem undoClick_ok (s : AppState) (hs : historyOk s) :
    historyOk (undoClick s) := by
  obtain ⟨h1, h2, h3⟩ := hs
  unfold undoClick
  split
  · next hlt => exact ⟨by simpa using h1, by simpa using (by omega), by simpa using (by omega)⟩
  · exact ⟨h1, h2, h3⟩

theorem redoClick_ok (s : AppState) (hs : historyOk s) :
    historyOk (redoClick s) := by
  obtain ⟨h1, h2, h3⟩ := hs
  unfold redoClick
  split
  · next hlt => exact ⟨by simpa using h1, by simpa using (by omega), by simpa using (by omega)⟩
  · exact ⟨h1, h2, h3⟩

theorem resetHistory_ok (h c : String) (s : AppState) :
    historyOk (resetHistory h c s) :=
  pushHistoryState_ok h c _

theorem applyHistOp_ok (s : AppState) (op : HistOp) (hs : historyOk s) :
    historyOk (applyHistOp s op) := by
  cases op with
  | push h c => exact pushHistoryState_ok h c s
  | undo => exact undoClick_ok s hs
  | redo => exact redoClick_ok s hs
  | reset h c => exact resetHistory_ok h c s

/-- Claim C8: once the snapshot sequence is non-empty, every sequence of
push, undo, redo and reset operations keeps the cursor a valid index into
the sequence, so reading the snapshot at the cursor after any operation
never accesses a missing element. -/
theorem c8_history_invariant (s : AppState) (ops : List HistOp)
    (hs : historyOk s) :
    historyOk (applyHistOps s ops) ∧
      (applyHistOps s ops).historyIndex.toNat <
        (applyHistOps s ops).history.length := by
  have hmain : historyOk (applyHistOps s ops) := by
    induction ops generalizing s with
    | nil => exact hs
    | cons op rest ih => exact ih (applyHistOp s op) (applyHistOp_ok s op hs)
  refine ⟨hmain, ?_⟩
  obtain ⟨h1, h2, h3⟩ := hmain
  have hlen : 0 < (applyHistOps s ops).history.length := List.length_pos.mpr h1
  omega

/-- Witness for C8 at a concrete state and operation sequence. -/
theorem c8_history_invariant_witness :
    historyOk (applyHistOps w8State w8Ops) ∧
      (applyHistOps w8State w8Ops).historyIndex.toNat <
        (applyHistOps w8State w8Ops).history.length :=
  c8_history_invariant w8State w8Ops ⟨by decide, by decide, by decide⟩

/-- Claim C5: undo at cursor 0 and redo at the last index are no-ops — the
whole state (snapshots, cursor, editors) is unchanged — and the disabled
state of the corresponding control, as set by `updateUndoRedoButtons`,
reports that the operation cannot move further. -/
theorem c5_terminal_noops (s : AppState) :
    (s.historyIndex = 0 → undoClick s = s ∧ undoDisabled s = true) ∧
    (s.historyIndex = (s.history.length : Int) - 1 →
      redoClick s = s ∧ redoDisabled s = true) := by
  constructor
  · intro h
    constructor
    · unfold undoClick
      rw [if_neg (by omega)]
    · unfold undoDisabled
      simp [h]
  · intro h
    constructor
    · unfold redoClick
      rw [if_neg (by omega)]
    · unfold redoDisabled
      simp [h]

/-- Witness for C5 at a one-snapshot state with the cursor at 0, which is
simultaneously the first and the last index. -/
theorem c5_terminal_noops_witness :
    undoClick w5State = w5State ∧ undoDisabled w5State = true ∧
      redoClick w5State = w5State ∧ redoDisabled w5State = true := by
  have h := c5_terminal_noops w5State
  have h1 := h.1 (by decide)
  have h2 := h.2 (by decide)
  exact ⟨h1.1, h1.2, h2.1, h2.2⟩

/-- Claim C4: from `reset(h0,c0)`, the sequence
`push(h1,c1); push(h2,c2); undo(); push(h3,c3)` leaves exactly the three
snapshots `[h0,c0],[h1,c1],[h3,c3]` with the cursor at index 2, and no
number of redo operations changes the state any further (so the discarded
`(h2,c2)` snapshot is unreachable by redo). -/
theorem c4_push_after_undo_truncates (h0 c0 h1 c1 h2 c2 h3 c3 : String)
    (s : AppState) :
    (pushHistoryState h3 c3 (undoClick (pushHistoryState h2 c2
        (pushHistoryState h1 c1 (resetHistory h0 c0 s))))).history
      = [⟨h0, c0⟩, ⟨h1, c1⟩, ⟨h3, c3⟩] ∧
    (pushHistoryState h3 c3 (undoClick (pushHistoryState h2 c2
        (pushHistoryState h1 c1 (resetHistory h0 c0 s))))).historyIndex = 2 ∧
    ∀ n : Nat,
      redoClick^[n] (pushHistoryState h3 c3 (undoClick (pushHistoryState h2 c2
        (pushHistoryState h1 c1 (resetHistory h0 c0 s))))) =
      pushHistoryState h3 c3 (undoClick (pushHistoryState h2 c2
        (pushHistoryState h1 c1 (resetHistory h0 c0 s)))) := by
  have e0 : resetHistory h0 c0 s
      = { s with history := [⟨h0, c0⟩], historyIndex := 0 } := by
    unfold resetHistory pushHistoryState
    norm_num [jsSliceTo_nil]
  have e1 : pushHistoryState h1 c1 { s with history := [⟨h0, c0⟩], historyIndex := 0 }
      = { s with history := [⟨h0, c0⟩, ⟨h1, c1⟩], historyIndex := 1 } := by
    unfold pushHistoryState
    norm_num
  have e2 : pushHistoryState h2 c2
        { s with history := [⟨h0, c0⟩, ⟨h1, c1⟩], historyIndex := 1 }
      = { s with history := [⟨h0, c0⟩, ⟨h1, c1⟩, ⟨h2, c2⟩], historyIndex := 2 } := by
    unfold pushHistoryState
    norm_num
  have e3 : undoClick
        { s with history := [⟨h0, c0⟩, ⟨h1, c1⟩, ⟨h2, c2⟩], historyIndex := 2 }
      = { s with history := [⟨h0, c0⟩, ⟨h1, c1⟩, ⟨h2, c2⟩], historyIndex := 1,
                 htmlEditor := h1, cssEditor := c1 } := by
    unfold undoClick loadStateFromHistory
    norm_num [List.getD]
  have e4 : pushHistoryState h3 c3
        { s with history := [⟨h0, c0⟩, ⟨h1, c1⟩, ⟨h2, c2⟩], historyIndex := 1,
                 htmlEditor := h1, cssEditor := c1 }
      = { s with history := [⟨h0, c0⟩, ⟨h1, c1⟩, ⟨h3, c3⟩], historyIndex := 2,
                 htmlEditor := h1, cssEditor := c1 } := by
    unfold pushHistoryState jsSliceTo
    norm_num
    rfl
  rw [e0, e1, e2, e3, e4]
  refine ⟨rfl, rfl, ?_⟩
  intro n
  have hfix : redoClick
      { s with history := [⟨h0, c0⟩, ⟨h1, c1⟩, ⟨h3, c3⟩], historyIndex := 2,
               htmlEditor := h1, cssEditor := c1 }
      = { s with history := [⟨h0, c0⟩, ⟨h1, c1⟩, ⟨h3, c3⟩], historyIndex := 2,
                 htmlEditor := h1, cssEditor := c1 } := by
    unfold redoClick
    norm_num
  exact Function.iterate_fixed hfix n

/-! ## Asset pipeline -/

theorem improveOne_id (refine : ImagePromptSpec → Option String)
    (p : ImagePromptSpec) : (improveOne refine p).id = p.id := by
  unfold improveOne; cases refine p <;> rfl

theorem renderOne_id (render : ImagePromptSpec → Option String)
    (p : ImagePromptSpec) : (renderOne render p).id = p.id := by
  unfold renderOne; cases render p <;> rfl

theorem renderOne_prompt (render : ImagePromptSpec → Option String)
    (p : ImagePromptSpec) : (renderOne render p).prompt = p.prompt := by
  unfold renderOne; cases render p <;> rfl

theorem getD_map_of_lt {α β : Type} (f : α → β) (l : List α) :
    ∀ i, i < l.length → ∀ (d : α) (d' : β),
      (l.map f).getD i d' = f (l.getD i d) := by
  induction l with
  | nil => intro i h; simp at h
  | cons a as ih =>
    intro i h d d'
    cases i with
    | zero => simp
    | succ n =>
      simp only [List.map_cons, List.getD_cons_succ]
      exact ih n (by simpa using h) d d'

theorem generateWebsite_latestGeneratedImages (draft : SiteDraft)
    (refine : ImagePromptSpec → Option String)
    (favRender : String → Option String)
    (render : ImagePromptSpec → Option String)
    (parse : String → HtmlDoc) (serialize : HtmlDoc → String) (s : AppState) :
    (generateWebsite (some draft) refine favRender render parse serialize
        s).latestGeneratedImages
      = generateImages render (improveImagePrompts refine draft.imagePrompts) := by
  unfold generateWebsite populateUI pushHistoryState
  rfl

/-- Claim C1: on a successful run, the published ImageAsset list has exactly
one entry per `imagePrompts` item, in order; a failed refinement call reuses
the original short prompt, and a failed image-generation call yields the
failure-placeholder URL while keeping the original placeholder id. -/
theorem c1_one_asset_per_prompt (draft : SiteDraft)
    (refine : ImagePromptSpec → Option String)
    (favRender : String → Option String)
    (render : ImagePromptSpec → Option String)
    (parse : String → HtmlDoc) (serialize : HtmlDoc → String) (s : AppState) :
    (generateWebsite (some draft) refine favRender render parse serialize
        s).latestGeneratedImages.length = draft.imagePrompts.length ∧
    ∀ i, i < draft.imagePrompts.length →
      ((generateWebsite (some draft) refine favRender render parse serialize
          s).latestGeneratedImages.getD i defaultAsset).id
          = (draft.imagePrompts.getD i defaultSpec).id ∧
      (refine (draft.imagePrompts.getD i defaultSpec) = none →
        ((generateWebsite (some draft) refine favRender render parse serialize
            s).latestGeneratedImages.getD i defaultAsset).prompt
            = (draft.imagePrompts.getD i defaultSpec).prompt) ∧
      (render (improveOne refine (draft.imagePrompts.getD i defaultSpec)) = none →
        ((generateWebsite (some draft) refine favRender render parse serialize
            s).latestGeneratedImages.getD i defaultAsset).url
            = failurePlaceholderUrl) := by
  have hA : (generateWebsite (some draft) refine favRender render parse serialize
      s).latestGeneratedImages
      = draft.imagePrompts.map (fun p => renderOne render (improveOne refine p)) := by
    rw [generateWebsite_latestGeneratedImages]
    unfold generateImages improveImagePrompts
    rw [List.map_map]
    rfl
  rw [hA]
  constructor
  · simp
  · intro i hi
    rw [getD_map_of_lt _ _ i hi defaultSpec defaultAsset]
    refine ⟨?_, ?_, ?_⟩
    · rw [renderOne_id, improveOne_id]
    · intro hfail
      rw [renderOne_prompt]
      unfold improveOne
      rw [hfail]
    · intro hfail
      unfold renderOne
      rw [hfail]

/-- Witness for C1 on a two-prompt draft where the refinement oracle fails on
the first prompt and the rendering oracle fails on the second. -/
theorem c1_one_asset_per_prompt_witness :
    ((generateWebsite (some wDraft) wRefine wFavRender wRender wParse wSerialize
        initialState).latestGeneratedImages.getD 0 defaultAsset).prompt
      = "fresh bread display" ∧
    ((generateWebsite (some wDraft) wRefine wFavRender wRender wParse wSerialize
        initialState).latestGeneratedImages.getD 1 defaultAsset).url
      = failurePlaceholderUrl ∧
    (generateWebsite (some wDraft) wRefine wFavRender wRender wParse wSerialize
        initialState).latestGeneratedImages.length = 2 := by
  have h := c1_one_asset_per_prompt wDraft wRefine wFavRender wRender wParse
    wSerialize initialState
  refine ⟨?_, ?_, ?_⟩
  · exact ((h.2 0 (by decide)).2.1 (by decide)).trans (by decide)
  · exact (h.2 1 (by decide)).2.2 (by decide)
  · exact h.1.trans (by decide)

/-- Counterexample to claim C2 as stated: when the structured-generation
stage fails, the previously published ImageAsset list and FaviconAsset are
NOT left untouched — `generateWebsite` clears both before the try block, so
the state observed by the preview and export paths afterwards differs from
its value before the attempt. -/
theorem c2_prior_document_counterexample :
    (generateWebsite none wRefine wFavRender wRender wParse wSerialize
        cPriorState).latestGeneratedImages ≠ cPriorState.latestGeneratedImages ∧
    (generateWebsite none wRefine wFavRender wRender wParse wSerialize
        cPriorState).latestFavicon ≠ cPriorState.latestFavicon := by
  constructor <;> decide

/-- Claim C2 (amended): when the structured-generation stage fails, the run
aborts without publishing a new Document — editors, history and cursor are
exactly as before the attempt and the input form reappears — but the
in-memory ImageAsset list and FaviconAsset, having been reset at the start
of the run, are left empty/none rather than at their prior values. -/
theorem c2_failed_structured_stage_aborts
    (refine : ImagePromptSpec → Option String)
    (favRender : String → Option String)
    (render : ImagePromptSpec → Option String)
    (parse : String → HtmlDoc) (serialize : HtmlDoc → String) (s : AppState) :
    (generateWebsite none refine favRender render parse serialize s).htmlEditor
        = s.htmlEditor ∧
    (generateWebsite none refine favRender render parse serialize s).cssEditor
        = s.cssEditor ∧
    (generateWebsite none refine favRender render parse serialize s).history
        = s.history ∧
    (generateWebsite none refine favRender render parse serialize s).historyIndex
        = s.historyIndex ∧
    (generateWebsite none refine favRender render parse serialize
        s).latestGeneratedImages = [] ∧
    (generateWebsite none refine favRender render parse serialize
        s).latestFavicon = none ∧
    (generateWebsite none refine favRender render parse serialize s).inputHidden
        = false := by
  unfold generateWebsite showError
  exact ⟨rfl, rfl, rfl, rfl, rfl, rfl, rfl⟩

/-! ## Form-submit validation -/

/-- Claim C10: a submitted prompt that is empty after trimming, or shorter
than `minPromptLength` after trimming, is rejected with a user message
before any network call starts, leaving images, favicon, history and both
editors untouched. -/
theorem c10_submit_validation (aiOk : Bool) (structured : Option SiteDraft)
    (refine : ImagePromptSpec → Option String)
    (favRender : String → Option String)
    (render : ImagePromptSpec → Option String)
    (parse : String → HtmlDoc) (serialize : HtmlDoc → String)
    (s : AppState) (t : String)
    (h : jsTrim t = "" ∨ (jsTrim t).length < minPromptLength) :
    (formSubmit aiOk structured refine favRender render parse serialize
        s t).state.latestGeneratedImages = s.latestGeneratedImages ∧
    (formSubmit aiOk structured refine favRender render parse serialize
        s t).state.latestFavicon = s.latestFavicon ∧
    (formSubmit aiOk structured refine favRender render parse serialize
        s t).state.history = s.history ∧
    (formSubmit aiOk structured refine favRender render parse serialize
        s t).state.historyIndex = s.historyIndex ∧
    (formSubmit aiOk structured refine favRender render parse serialize
        s t).state.htmlEditor = s.htmlEditor ∧
    (formSubmit aiOk structured refine favRender render parse serialize
        s t).state.cssEditor = s.cssEditor ∧
    (formSubmit aiOk structured refine favRender render parse serialize
        s t).generationStarted = false ∧
    (formSubmit aiOk structured refine favRender render parse serialize
        s t).alerted = true := by
  have key : formSubmit aiOk structured refine favRender render parse serialize s t
      = { state := showError s, generationStarted := false, alerted := true } := by
    unfold formSubmit
    cases aiOk with
    | false => rfl
    | true =>
      simp only [Bool.not_true, Bool.false_eq_true, if_false]
      rcases h with h | h
      · rw [if_pos h]
      · by_cases h0 : jsTrim t = ""
        · rw [if_pos h0]
        · rw [if_neg h0, if_pos h]
  rw [key]
  exact ⟨rfl, rfl, rfl, rfl, rfl, rfl, rfl, rfl⟩

/-- Witness for C10 on a prompt that trims to fewer than 15 characters. -/
theorem c10_submit_validation_witness :
    (formSubmit true (some wDraft) wRefine wFavRender wRender wParse wSerialize
        cPriorState "  short  ").state.latestGeneratedImages
        = cPriorState.latestGeneratedImages ∧
    (formSubmit true (some wDraft) wRefine wFavRender wRender wParse wSerialize
        cPriorState "  short  ").generationStarted = false := by
  have h := c10_submit_validation true (some wDraft) wRefine wFavRender wRender
    wParse wSerialize cPriorState "  short  " (Or.inr (by decide))
  exact ⟨h.1, h.2.2.2.2.2.2.1⟩

/-! ## Export precondition -/

/-- Claim C6: export with empty markup or zero recorded ImageAssets fails up
front with a user-facing alert, produces no archive, fetches nothing and
modifies no state. -/
theorem c6_export_precondition (parse : String → HtmlDoc)
    (serialize : HtmlDoc → String) (fetch : String → String) (s : AppState)
    (h : s.htmlEditor = "" ∨ s.latestGeneratedImages = []) :
    exportClick parse serialize fetch s
      = { state := s, archive := none, fetched := [], alerted := true } := by
  unfold exportClick
  rw [if_pos h]

/-- Witness for C6 at the pristine startup state (empty markup, no assets). -/
theorem c6_export_precondition_witness :
    exportClick wParse wSerialize wFetch initialState
      = { state := initialState, archive := none, fetched := [],
          alerted := true } :=
  c6_export_precondition wParse wSerialize wFetch initialState (Or.inl rfl)

/-! ## Persistence round trip -/

/-- Counterexample to claim C7 as stated: for a Document with empty markup
but a non-empty asset list, the save guard lets the write proceed, yet the
load guard (`if (data.html)`) rejects the record, so nothing is restored: no
single-snapshot history is repopulated, the UI is not switched, and the
restored image list does not equal the saved one. -/
theorem c7_round_trip_counterexample :
    (saveStateToLocalStorage (fun _ => true) 0 cSaveState none).isSome = true ∧
    loadStateFromLocalStorage
        (saveStateToLocalStorage (fun _ => true) 0 cSaveState none) initialState
      = initialState ∧
    initialState.history = [] ∧
    initialState.latestGeneratedImages ≠ cSaveState.latestGeneratedImages := by
  refine ⟨by decide, by decide, rfl, by decide⟩

/-- Claim C7 (amended): for every Document whose markup is non-empty, load
immediately after a successful save (no intervening store mutation)
reconstructs markup, CSS, image list and favicon value-equal to the saved
ones, repopulates the history with exactly one snapshot, and switches the UI
to the generated-site mode. -/
theorem c7_round_trip (quotaOk : SavedData → Bool) (now : Nat)
    (s s0 : AppState) (store : Option SavedData)
    (hhtml : s.htmlEditor ≠ "")
    (hquota : quotaOk ⟨s.htmlEditor, s.cssEditor, s.latestGeneratedImages,
        s.latestFavicon, now⟩ = true) :
    (loadStateFromLocalStorage
        (saveStateToLocalStorage quotaOk now s store) s0).htmlEditor
        = s.htmlEditor ∧
    (loadStateFromLocalStorage
        (saveStateToLocalStorage quotaOk now s store) s0).cssEditor
        = s.cssEditor ∧
    (loadStateFromLocalStorage
        (saveStateToLocalStorage quotaOk now s store) s0).latestGeneratedImages
        = s.latestGeneratedImages ∧
    (loadStateFromLocalStorage
        (saveStateToLocalStorage quotaOk now s store) s0).latestFavicon
        = s.latestFavicon ∧
    (loadStateFromLocalStorage
        (saveStateToLocalStorage quotaOk now s store) s0).history
        = [⟨s.htmlEditor, s.cssEditor⟩] ∧
    (loadStateFromLocalStorage
        (saveStateToLocalStorage quotaOk now s store) s0).historyIndex = 0 ∧
    (loadStateFromLocalStorage
        (saveStateToLocalStorage quotaOk now s store) s0).inputHidden = true ∧
    (loadStateFromLocalStorage
        (saveStateToLocalStorage quotaOk now s store) s0).resultShown = true := by
  have hguard : ¬(s.htmlEditor = "" ∧ s.latestGeneratedImages = []) :=
    fun hc => hhtml hc.1
  have hsave : saveStateToLocalStorage quotaOk now s store
      = some { html := s.htmlEditor, css := s.cssEditor,
               images := s.latestGeneratedImages, favicon := s.latestFavicon,
               timestamp := now } := by
    unfold saveStateToLocalStorage
    rw [if_neg hguard, if_pos hquota]
  have hload : loadStateFromLocalStorage
        (saveStateToLocalStorage quotaOk now s store) s0
      = pushHistoryState s.htmlEditor s.cssEditor
          { s0 with latestGeneratedImages := s.latestGeneratedImages,
                    latestFavicon := s.latestFavicon,
                    htmlEditor := s.htmlEditor, cssEditor := s.cssEditor,
                    inputHidden := true, resultShown := true,
                    history := [] } := by
    rw [hsave]
    simp only [loadStateFromLocalStorage]
    rw [if_neg hhtml]
  rw [hload]
  unfold pushHistoryState
  simp only [jsSliceTo_nil, ite_self]
  norm_num

/-- Witness for C7 at a concrete prior document with non-empty markup. -/
theorem c7_round_trip_witness :
    (loadStateFromLocalStorage
        (saveStateToLocalStorage (fun _ => true) 1 cPriorState none)
        initialState).htmlEditor = cPriorState.htmlEditor ∧
    (loadStateFromLocalStorage
        (saveStateToLocalStorage (fun _ => true) 1 cPriorState none)
        initialState).history
      = [⟨cPriorState.htmlEditor, cPriorState.cssEditor⟩] := by
  have h := c7_round_trip (fun _ => true) 1 cPriorState initialState none
    (by decide) rfl
  exact ⟨h.1, h.2.2.2.2.1⟩

/-! ## Placeholder resolution: idempotence -/

theorem srcWrite_srcWrite (u u' : String) (e : HtmlImg) :
    srcWrite u (srcWrite u' e) = srcWrite u e := rfl

theorem modSrc_get? (l : List HtmlImg) :
    ∀ (i : Nat) (u : String) (j : Nat),
      (modSrc l i u).get? j
        = if j = i then (l.get? j).map (srcWrite u) else l.get? j := by
  induction l with
  | nil => intro i u j; simp [modSrc]
  | cons e rest ih =>
    intro i u j
    cases i with
    | zero =>
      cases j with
      | zero => simp [modSrc, srcWrite]
      | succ k => simp [modSrc]
    | succ n =>
      cases j with
      | zero => simp [modSrc]
      | succ k =>
        simp only [modSrc, List.get?_cons_succ]
        rw [ih n u k]
        simp [Nat.succ_eq_add_one]


theorem findIdxOf_modSrc (l : List HtmlImg) :
    ∀ (i : Nat) (u : String) (pid : String),
      findIdxOf (modSrc l i u) pid = findIdxOf l pid := by
  induction l with
  | nil => intro i u pid; rfl
  | cons e rest ih =>
    intro i u pid
    cases i with
    | zero => simp [modSrc, findIdxOf, srcWrite]
    | succ n => simp [modSrc, findIdxOf, ih]

theorem findIdxOf_setSrcById (l : List HtmlImg) (pid' u pid : String) :
    findIdxOf (setSrcById l pid' u) pid = findIdxOf l pid := by
  unfold setSrcById
  cases h : findIdxOf l pid' with
  | none => rfl
  | some i => simp [findIdxOf_modSrc]

theorem injectImages_cons (a : ImageAsset) (as : List ImageAsset)
    (l : List HtmlImg) :
    injectImages (a :: as) l = injectImages as (setSrcById l a.id a.url) := rfl

theorem findIdxOf_injectImages (as : List ImageAsset) :
    ∀ (l : List HtmlImg) (pid : String),
      findIdxOf (injectImages as l) pid = findIdxOf l pid := by
  induction as with
  | nil => intro l pid; rfl
  | cons a rest ih =>
    intro l pid
    rw [injectImages_cons, ih, findIdxOf_setSrcById]

theorem setSrcById_get? (l : List HtmlImg) (pid u : String) (j : Nat) :
    (setSrcById l pid u).get? j
      = if findIdxOf l pid = some j then (l.get? j).map (srcWrite u)
        else l.get? j := by
  unfold setSrcById
  cases h : findIdxOf l pid with
  | none => simp
  | some i =>
    rw [modSrc_get?]
    by_cases hij : j = i
    · simp [hij]
    · have hij' : ¬i = j := fun hc => hij hc.symm
      simp [hij, hij']

theorem injectImages_get? (as : List ImageAsset) :
    ∀ (l : List HtmlImg) (j : Nat),
      (injectImages as l).get? j
        = match lastUrlAt (fun pid => findIdxOf l pid) as j with
          | some u => (l.get? j).map (srcWrite u)
          | none => l.get? j := by
  induction as with
  | nil => intro l j; rfl
  | cons a rest ih =>
    intro l j
    rw [injectImages_cons, ih]
    have hidx : (fun pid => findIdxOf (setSrcById l a.id a.url) pid)
        = fun pid => findIdxOf l pid := by
      funext pid; exact findIdxOf_setSrcById l a.id a.url pid
    rw [hidx]
    cases hl : lastUrlAt (fun pid => findIdxOf l pid) rest j with
    | some u =>
      simp only [lastUrlAt, hl]
      rw [setSrcById_get?]
      by_cases hc : findIdxOf l a.id = some j
      · rw [if_pos hc]
        cases l.get? j <;> simp [srcWrite]
      · rw [if_neg hc]
    | none =>
      simp only [lastUrlAt, hl]
      rw [setSrcById_get?]
      by_cases hc : findIdxOf l a.id = some j
      · simp [hc]
      · simp [hc]

theorem injectImages_idem (as : List ImageAsset) (l : List HtmlImg) :
    injectImages as (injectImages as l) = injectImages as l := by
  apply List.ext_get?_iff.mpr
  intro j
  have hidx : (fun pid => findIdxOf (injectImages as l) pid)
      = fun pid => findIdxOf l pid := by
    funext pid; exact findIdxOf_injectImages as l pid
  rw [injectImages_get? as (injectImages as l) j, hidx,
    injectImages_get? as l j]
  cases hl : lastUrlAt (fun pid => findIdxOf l pid) as j with
  | some u => cases l.get? j <;> simp [srcWrite]
  | none => rfl

theorem updatePreview_idem (images : List ImageAsset) (favicon : Option Favicon)
    (css : String) (d : HtmlDoc) :
    updatePreview images favicon css (updatePreview images favicon css d)
      = updatePreview images favicon css d := by
  unfold updatePreview
  cases favicon with
  | none => simp [injectImages_idem]
  | some f =>
    cases hic : d.iconHref with
    | none => simp [hic, injectImages_idem]
    | some v => simp [hic, injectImages_idem]

theorem resolveDoc_idem (images : List ImageAsset) (favicon : Option Favicon)
    (md mk : String) (d : HtmlDoc) :
    resolveDoc images favicon md mk (resolveDoc images favicon md mk d)
      = resolveDoc images favicon md mk d := by
  unfold resolveDoc injectMetaFavicon extractFirstStyle updatePreview
  by_cases hmd : md = "" <;> by_cases hmk : mk = "" <;>
    cases favicon <;>
    cases hhs : d.headStyles <;> cases hbs : d.bodyStyles <;>
    simp [hmd, hmk, hhs, hbs, injectImages_idem]

/-- Claim C3: placeholder resolution is idempotent — both the preview path
(`updatePreview`) and the full resolution pass a generation performs
(`resolveDoc`: meta/keywords/favicon injection, first-style extraction, then
preview) return the same document when re-run on their own output with the
same asset set, favicon and meta values; in particular a second run never
duplicates the inserted style, meta or icon-link elements and never changes
an attribute the first run set. -/
theorem c3_resolution_idempotent (images : List ImageAsset)
    (favicon : Option Favicon) (md mk css : String) (d : HtmlDoc) :
    updatePreview images favicon css (updatePreview images favicon css d)
        = updatePreview images favicon css d ∧
    resolveDoc images favicon md mk (resolveDoc images favicon md mk d)
        = resolveDoc images favicon md mk d :=
  ⟨updatePreview_idem images favicon css d,
   resolveDoc_idem images favicon md mk d⟩

/-! ## Export assembler: unmatched assets are skipped -/

/-- Claim C9: the export loop silently skips every ImageAsset whose
placeholder id matches no element of the current markup — contributing no
fetch and no `images/` file — while every matched asset is exported: the
produced file list and fetch list are exactly those of the matched assets,
in order. -/
theorem c9_export_skips_unmatched (fetch : String → String)
    (as : List ImageAsset) (doc : HtmlDoc) :
    (exportLoop fetch as doc).files
        = (as.filter (fun a => (findIdxOf doc.images a.id).isSome)).map
            (fun a => (sanitizeId a.id ++ ".jpeg", fetch a.url)) ∧
    (exportLoop fetch as doc).fetched
        = (as.filter (fun a => (findIdxOf doc.images a.id).isSome)).map
            (fun a => a.url) := by
  induction as generalizing doc with
  | nil => exact ⟨rfl, rfl⟩
  | cons a rest ih =>
    unfold exportLoop
    cases hfind : findIdxOf doc.images a.id with
    | none =>
      have hfilt : List.filter
            (fun a' : ImageAsset => (findIdxOf doc.images a'.id).isSome) (a :: rest)
          = List.filter
            (fun a' : ImageAsset => (findIdxOf doc.images a'.id).isSome) rest := by
        simp [hfind]
      have hr := ih doc
      simp only [hfind, hfilt]
      exact hr
    | some i =>
      have hpred : (fun a' : ImageAsset =>
            (findIdxOf (modSrc doc.images i
              ("images/" ++ (sanitizeId a.id ++ ".jpeg"))) a'.id).isSome)
          = fun a' : ImageAsset => (findIdxOf doc.images a'.id).isSome := by
        funext a'
        rw [findIdxOf_modSrc]
      have hfilt : List.filter
            (fun a' : ImageAsset => (findIdxOf doc.images a'.id).isSome) (a :: rest)
          = a :: List.filter
            (fun a' : ImageAsset => (findIdxOf doc.images a'.id).isSome) rest := by
        simp [hfind]
      have hr := ih { doc with
        images := modSrc doc.images i ("images/" ++ (sanitizeId a.id ++ ".jpeg")) }
      rw [hpred] at hr
      simp only [hfind, hfilt, List.map_cons]
      exact ⟨by rw [hr.1], by rw [hr.2]⟩

end SiteGen
